import Mathlib

/-!
Verification of the chor-police frontend configuration fragments.

The repository contains two Vite build configurations and an application
bootstrap module.  The runtime behaviour under study is the
environment-conditional API base-URL resolution:

* the bootstrap module assigns
  `axios.defaults.baseURL = import.meta.env.MODE === 'production'
     ? 'https://chor-police-backend.onrender.com' : ''`;
* one Vite config defines the compile-time constant keyed on
  `process.env.NODE_ENV` with the same two branches, and proxies the
  path `/api` to `http://localhost:8000` during development;
* the other Vite config (src/frontend/vite.config.js) proxies `/api`
  to `https://chor-police-backend.onrender.com`.

Each definition below is a direct shallow embedding of one of those
source expressions.
-/

namespace ChorPolice

/-- The hard-coded production backend origin literal appearing in the
source files. -/
def productionOrigin : String := "https://chor-police-backend.onrender.com"

/-- Shallow embedding of the bootstrap expression
`import.meta.env.MODE === 'production'
   ? 'https://chor-police-backend.onrender.com' : ''`
(the value assigned to `axios.defaults.baseURL`). -/
def resolveBaseURL (mode : String) : String :=
  if mode = "production" then "https://chor-police-backend.onrender.com" else ""

/-- Shallow embedding of the compile-time define in the unnamed Vite
config: the string chosen by
`process.env.NODE_ENV === 'production'
   ? 'https://chor-police-backend.onrender.com' : ''`.
The surrounding JSON.stringify call serialises this string into a
source literal, so the injected constant evaluates back to exactly
this string at runtime. -/
def apiBaseURLDefine (nodeEnv : String) : String :=
  if nodeEnv = "production" then "https://chor-police-backend.onrender.com" else ""

/-! ### The Vite dev-server proxy tables

Each `server.proxy` object is a finite map from a request-path
prefix to a target address, embedded as an association list. -/

/-- The `server.proxy` object of the unnamed Vite config:
`{ '/api': 'http://localhost:8000' }`. -/
def unnamedServerProxy : List (String × String) :=
  [("/api", "http://localhost:8000")]

/-- The `server.proxy` object of src/frontend/vite.config.js:
`{ '/api': 'https://chor-police-backend.onrender.com' }`. -/
def frontendServerProxy : List (String × String) :=
  [("/api", "https://chor-police-backend.onrender.com")]

/-! ### Elementary URL anatomy, used to state the claims about
"absolute origin URL" and "local host:port address". -/

/-- Drop a leading http or https scheme marker from a URL given as a
character list. -/
def stripSchemeChars (url : List Char) : List Char :=
  if "https://".data.isPrefixOf url then url.drop 8
  else if "http://".data.isPrefixOf url then url.drop 7
  else url

/-- The host component of a URL: everything after the scheme up to the
first colon or slash. -/
def hostChars (url : List Char) : List Char :=
  (stripSchemeChars url).takeWhile (fun c => c != ':' && c != '/')

/-- The port digits of a URL, or the empty list when no explicit port
is present. -/
def portChars (url : List Char) : List Char :=
  match (stripSchemeChars url).drop (hostChars url).length with
  | ':' :: tl => tl.takeWhile Char.isDigit
  | _ => []

/-- The host component of a URL string. -/
def hostOf (url : String) : String := String.mk (hostChars url.data)

/-- The port component of a URL string, empty when absent. -/
def portOf (url : String) : String := String.mk (portChars url.data)

/-- Whether a string carries an explicit http or https scheme. -/
def hasHttpScheme (s : String) : Bool :=
  "http://".data.isPrefixOf s.data || "https://".data.isPrefixOf s.data

/-- A valid absolute origin URL: an explicit scheme followed by a
non-empty host. -/
def isAbsoluteOriginURL (s : String) : Bool :=
  hasHttpScheme s && !(hostChars s.data).isEmpty

/-- A proxy target is a local development address when its host is the
local loopback. -/
def isLocalTarget (t : String) : Bool :=
  hostChars t.data == "localhost".data || hostChars t.data == "127.0.0.1".data

/-! ### The bootstrap module as a step trace

The bootstrap module (src/unnamed/part_000, second document) performs,
in order: the module imports, the single assignment to
`axios.defaults.baseURL`, and the `ReactDOM.createRoot(...).render(...)`
call.  We embed it as a list of steps acting on the shared axios
default-configuration record. -/

/-- The mutable default configuration of the shared axios client.
Besides `baseURL` we carry the other common default fields so that
frame conditions are expressible. -/
structure AxiosDefaults where
  baseURL : String
  timeout : Nat
  headers : List (String × String)
  withCredentials : Bool
deriving Repr, DecidableEq

/-- One step of the bootstrap module. -/
inductive BootstrapStep where
  /-- The import statements at the top of the module. -/
  | importModules : BootstrapStep
  /-- The assignment `axios.defaults.baseURL = ...`. -/
  | setAxiosBaseURL (value : String) : BootstrapStep
  /-- The `ReactDOM.createRoot(...).render(...)` call. -/
  | renderRoot : BootstrapStep
deriving Repr, DecidableEq

/-- How one bootstrap step acts on the axios defaults.  Only the
base-URL assignment touches the record; imports and rendering leave
it untouched. -/
def applyStep (cfg : AxiosDefaults) : BootstrapStep → AxiosDefaults
  | .setAxiosBaseURL v => { cfg with baseURL := v }
  | .importModules => cfg
  | .renderRoot => cfg

/-- Run a list of bootstrap steps from an initial configuration. -/
def runTrace (cfg : AxiosDefaults) (tr : List BootstrapStep) : AxiosDefaults :=
  tr.foldl applyStep cfg

/-- Whether a step writes to `axios.defaults.baseURL`. -/
def writesBaseURL : BootstrapStep → Bool
  | .setAxiosBaseURL _ => true
  | _ => false

/-- The full trace of the bootstrap module for a given runtime mode:
imports, the single base-URL assignment, then the render call. -/
def bootstrapTrace (mode : String) : List BootstrapStep :=
  [BootstrapStep.importModules,
   BootstrapStep.setAxiosBaseURL (resolveBaseURL mode),
   BootstrapStep.renderRoot]

/-! ### The runtime environment record

`import.meta.env` in a Vite application exposes the fields below; the
bootstrap expression reads only `MODE`. -/

/-- The Vite runtime environment object `import.meta.env`. -/
structure ImportMetaEnv where
  MODE : String
  DEV : Bool
  PROD : Bool
  SSR : Bool
deriving Repr, DecidableEq

/-- The bootstrap expression as a function of the whole environment
object: it consults only the `MODE` field. -/
def resolveBaseURLFromEnv (env : ImportMetaEnv) : String :=
  resolveBaseURL env.MODE

end ChorPolice

namespace ChorPolice

/-- C1: for mode = development the resolved base URL is the empty
string. -/
theorem resolveBaseURL_development : resolveBaseURL "development" = "" := by
  decide

/-- C2: for mode = production the resolved base URL is the hard-coded
production origin literal. -/
theorem resolveBaseURL_production :
    resolveBaseURL "production" = productionOrigin := by
  decide

/-- Helper: the resolver takes one of exactly two values, the
production origin or the empty string. -/
theorem resolveBaseURL_eq_or (mode : String) :
    resolveBaseURL mode = productionOrigin ∨ resolveBaseURL mode = "" := by
  unfold resolveBaseURL productionOrigin
  split
  · exact Or.inl rfl
  · exact Or.inr rfl

/-- C3 counterexample: the proxy rule of src/frontend/vite.config.js
maps the path `/api` to the remote production origin, which is not a
local host:port address. -/
theorem frontendProxy_not_local :
    ("/api", productionOrigin) ∈ frontendServerProxy ∧
    isLocalTarget productionOrigin = false := by
  decide

/-- C3 amended: the proxy rule of the unnamed Vite config maps `/api`
to the local address http://localhost:8000 (host `localhost`, port
8000), while the proxy rule of src/frontend/vite.config.js maps
`/api` to the remote production origin, which is not local. -/
theorem proxy_rules_targets :
    (("/api", "http://localhost:8000") ∈ unnamedServerProxy ∧
      isLocalTarget "http://localhost:8000" = true ∧
      hostOf "http://localhost:8000" = "localhost" ∧
      portOf "http://localhost:8000" = "8000") ∧
    (("/api", productionOrigin) ∈ frontendServerProxy ∧
      isLocalTarget productionOrigin = false ∧
      isAbsoluteOriginURL productionOrigin = true) := by
  decide

/-- C4: the resolver is total — for every mode string it returns a
string, drawn from the exhaustive two-valued codomain {production
origin, empty string}; no failure branch exists. -/
theorem resolveBaseURL_total (mode : String) :
    resolveBaseURL mode = productionOrigin ∨ resolveBaseURL mode = "" :=
  resolveBaseURL_eq_or mode

/-- C5: the bootstrap trace writes `axios.defaults.baseURL` exactly
once; after running the whole trace the field holds the resolved
value, and every step of the trace other than that single write
leaves the field unchanged on any configuration. -/
theorem bootstrap_sets_baseURL_once (mode : String) (cfg : AxiosDefaults) :
    (bootstrapTrace mode).countP writesBaseURL = 1 ∧
    (runTrace cfg (bootstrapTrace mode)).baseURL = resolveBaseURL mode ∧
    (∀ s ∈ bootstrapTrace mode, writesBaseURL s = false →
      ∀ c : AxiosDefaults, (applyStep c s).baseURL = c.baseURL) := by
  refine ⟨rfl, rfl, ?_⟩
  intro s hs hw c
  simp only [bootstrapTrace, List.mem_cons, List.not_mem_nil, or_false] at hs
  rcases hs with h | h | h <;> subst h
  · rfl
  · simp [writesBaseURL] at hw
  · rfl

/-- C5 witness: concrete run in production mode from a concrete
initial configuration. -/
theorem bootstrap_sets_baseURL_once_witness :
    (bootstrapTrace "production").countP writesBaseURL = 1 ∧
    (runTrace ⟨"", 0, [], false⟩ (bootstrapTrace "production")).baseURL
      = resolveBaseURL "production" :=
  ⟨(bootstrap_sets_baseURL_once "production" ⟨"", 0, [], false⟩).1,
   (bootstrap_sets_baseURL_once "production" ⟨"", 0, [], false⟩).2.1⟩

/-- C6: the base-URL assignment step produces exactly the input
configuration with its `baseURL` field replaced; every other default
field (timeout, headers, withCredentials) is untouched. -/
theorem setBaseURL_frame (mode : String) (cfg : AxiosDefaults) :
    applyStep cfg (BootstrapStep.setAxiosBaseURL (resolveBaseURL mode))
      = { cfg with baseURL := resolveBaseURL mode } ∧
    (applyStep cfg (BootstrapStep.setAxiosBaseURL (resolveBaseURL mode))).timeout
      = cfg.timeout ∧
    (applyStep cfg (BootstrapStep.setAxiosBaseURL (resolveBaseURL mode))).headers
      = cfg.headers ∧
    (applyStep cfg (BootstrapStep.setAxiosBaseURL (resolveBaseURL mode))).withCredentials
      = cfg.withCredentials :=
  ⟨rfl, rfl, rfl, rfl⟩

/-- C7: whenever the resolved base URL is non-empty it is a valid
absolute origin URL (explicit scheme followed by a non-empty host). -/
theorem resolveBaseURL_nonempty_isAbsolute (mode : String)
    (h : resolveBaseURL mode ≠ "") :
    isAbsoluteOriginURL (resolveBaseURL mode) = true := by
  rcases resolveBaseURL_eq_or mode with hp | he
  · rw [hp]; decide
  · exact absurd he h

/-- C7 witness: in production mode the resolved URL is non-empty and
indeed an absolute origin URL. -/
theorem resolveBaseURL_nonempty_isAbsolute_witness :
    resolveBaseURL "production" ≠ "" ∧
    isAbsoluteOriginURL (resolveBaseURL "production") = true :=
  ⟨by decide, resolveBaseURL_nonempty_isAbsolute "production" (by decide)⟩

/-- C8: the resolver is deterministic and depends only on the MODE
field of the environment — two environments agreeing on MODE yield
identical base URLs regardless of every other field. -/
theorem resolveBaseURL_deterministic (e₁ e₂ : ImportMetaEnv)
    (h : e₁.MODE = e₂.MODE) :
    resolveBaseURLFromEnv e₁ = resolveBaseURLFromEnv e₂ := by
  unfold resolveBaseURLFromEnv
  rw [h]

/-- C8 witness: two environments equal in MODE but opposite in every
other field resolve to the same base URL. -/
theorem resolveBaseURL_deterministic_witness :
    resolveBaseURLFromEnv ⟨"production", false, true, false⟩
      = resolveBaseURLFromEnv ⟨"production", true, false, true⟩ :=
  resolveBaseURL_deterministic ⟨"production", false, true, false⟩
    ⟨"production", true, false, true⟩ rfl

/-- C9: the build-time define keyed on NODE_ENV and the runtime
bootstrap expression keyed on MODE compute the same base URL for
every mode value: the production origin for production and the empty
string otherwise. -/
theorem define_runtime_agree (m : String) :
    apiBaseURLDefine m = resolveBaseURL m ∧
    apiBaseURLDefine "production" = productionOrigin ∧
    (m ≠ "production" → apiBaseURLDefine m = "" ∧ resolveBaseURL m = "") := by
  refine ⟨rfl, by decide, ?_⟩
  intro h
  constructor <;> simp [apiBaseURLDefine, resolveBaseURL, h]

/-- C9 witness: concrete agreement at the development mode. -/
theorem define_runtime_agree_witness :
    apiBaseURLDefine "development" = "" ∧ resolveBaseURL "development" = "" :=
  (define_runtime_agree "development").2.2 (by decide)

/-- C10: for every mode other than production — not only development —
both the runtime resolver and the build-time define fall through to
the empty string: the non-production branch is a catch-all default. -/
theorem nonproduction_catchall (m : String) (h : m ≠ "production") :
    resolveBaseURL m = "" ∧ apiBaseURLDefine m = "" := by
  constructor <;> simp [resolveBaseURL, apiBaseURLDefine, h]

/-- C10 witness: the catch-all at the concrete modes test and
staging. -/
theorem nonproduction_catchall_witness :
    (resolveBaseURL "test" = "" ∧ apiBaseURLDefine "test" = "") ∧
    (resolveBaseURL "staging" = "" ∧ apiBaseURLDefine "staging" = "") :=
  ⟨nonproduction_catchall "test" (by decide),
   nonproduction_catchall "staging" (by decide)⟩

end ChorPolice
